import Mathlib

/-!
Verification of the ETHpredictTFT script (`src/ethpredictiontft.py`): a
shallow embedding of its deterministic data-shaping steps and configuration
constants, together with theorems settling the specification's claims about
them.  Timestamps are modelled as integer Unix epoch seconds (pandas
`datetime64[s]`), prices as rationals, tables as lists of rows in
API-returned order, and the fallible fetch as a function of an HTTP oracle
returning `Except`.
-/

namespace ETHPredictTFT

/-! ## Configuration constants (lines 12-14 of the script) -/

def MAX_ENCODER_LENGTH : Nat := 365

def MAX_PREDICTION_LENGTH : Nat := 7

def BATCH_SIZE : Nat := 128

/-! ## Timestamps and timedeltas

A pandas timestamp created by `pd.to_datetime(_, unit='s')` is a point on
the calendar axis; we represent it by its count of seconds since the Unix
epoch.  A `pd.Timedelta(days=n)` is `n * 86400` seconds. -/

structure Timestamp where
  epochSeconds : Int
deriving DecidableEq, Repr

def pd_to_datetime_unit_s (t : Int) : Timestamp := ⟨t⟩

def pd_Timedelta_days (n : Int) : Int := n * 86400

def Timestamp.addSeconds (t : Timestamp) (s : Int) : Timestamp := ⟨t.epochSeconds + s⟩

def Timestamp.subSeconds (t : Timestamp) (s : Int) : Timestamp := ⟨t.epochSeconds - s⟩

/-! ## Rows of the fetched table

`fetch_data` builds `pd.DataFrame(data, columns=['time', 'close', 'open',
'high', 'low', 'volumeto'])` and converts the `time` column with
`pd.to_datetime(unit='s')` (lines 21-22). -/

structure Bar where
  time : Timestamp
  close : Rat
  «open» : Rat
  high : Rat
  low : Rat
  volumeto : Rat
deriving DecidableEq, Repr

def fetch_columns : List String := ["time", "close", "open", "high", "low", "volumeto"]

/-! ## Column maximum / minimum (pandas `Series.max()` / `Series.min()`) -/

def colMax : List Int → Int
  | [] => 0
  | [x] => x
  | x :: y :: xs => max x (colMax (y :: xs))

def colMin : List Int → Int
  | [] => 0
  | [x] => x
  | x :: y :: xs => min x (colMin (y :: xs))

theorem le_colMax {x : Int} : ∀ {xs : List Int}, x ∈ xs → x ≤ colMax xs
  | [x'], h => by
      rcases List.mem_singleton.mp h with rfl
      exact le_refl _
  | x' :: y :: ys, h => by
      rcases List.mem_cons.mp h with rfl | h'
      · exact le_max_left _ _
      · exact le_trans (le_colMax h') (le_max_right _ _)

theorem colMax_mem : ∀ {xs : List Int}, xs ≠ [] → colMax xs ∈ xs
  | [], h => absurd rfl h
  | [x], _ => List.mem_singleton.mpr rfl
  | x :: y :: ys, _ => by
      rcases max_cases x (colMax (y :: ys)) with ⟨he, _⟩ | ⟨he, _⟩
      · rw [colMax, he]
        exact List.mem_cons_self _ _
      · rw [colMax, he]
        exact List.mem_cons_of_mem _ (colMax_mem (by simp))

theorem colMin_le {x : Int} : ∀ {xs : List Int}, x ∈ xs → colMin xs ≤ x
  | [x'], h => by
      rcases List.mem_singleton.mp h with rfl
      exact le_refl _
  | x' :: y :: ys, h => by
      rcases List.mem_cons.mp h with rfl | h'
      · exact min_le_left _ _
      · exact le_trans (min_le_right _ _) (colMin_le h')

/-! ## Feature preparation (lines 54-58 of the script) -/

def timeSeconds (df : List Bar) : List Int := df.map (fun r => r.time.epochSeconds)

def timeMin (df : List Bar) : Timestamp := ⟨colMin (timeSeconds df)⟩

def timeMax (df : List Bar) : Timestamp := ⟨colMax (timeSeconds df)⟩

/-- Line 56: `df['time_idx'] = (df['time'] - df['time'].min()).dt.days`;
`Timedelta.days` floors toward negative infinity, hence `Int.fdiv`. -/
def time_idx (df : List Bar) (r : Bar) : Int :=
  (r.time.epochSeconds - (timeMin df).epochSeconds).fdiv 86400

def time_idx_col (df : List Bar) : List Int := df.map (time_idx df)

/-- Line 57: `df['group'] = 'eth_usd'`. -/
def group_col (df : List Bar) : List String := df.map (fun _ => "eth_usd")

/-- Line 58: `training_cutoff = df["time"].max() - pd.Timedelta(days=MAX_PREDICTION_LENGTH)`. -/
def training_cutoff (df : List Bar) : Timestamp :=
  (timeMax df).subSeconds (pd_Timedelta_days (MAX_PREDICTION_LENGTH : Int))

/-- Line 62: `df[lambda x: x.time <= training_cutoff]`, the table handed to
the training `TimeSeriesDataSet`. -/
def trainingRows (df : List Bar) : List Bar :=
  df.filter (fun r => r.time.epochSeconds ≤ (training_cutoff df).epochSeconds)

/-- The remaining rows: the held-out horizon (complement of `trainingRows`). -/
def holdoutRows (df : List Bar) : List Bar :=
  df.filter (fun r => !(r.time.epochSeconds ≤ (training_cutoff df).epochSeconds : Bool))

/-- Line 79: `TimeSeriesDataSet.from_dataset(training, df, ...)` — the
validation dataset is built over the full table `df`. -/
def validationTable (df : List Bar) : List Bar := df

/-! ## JSON values and Python-style failures

`requests.get(...).json()['Data']['Data']` can fail with: a request
exception, a JSON decode error, a `KeyError` (key absent from a dict), or a
`TypeError` (string subscript on a non-dict); `pd.DataFrame` raises a
`ValueError` on scalar data and `iloc[-1]` an `IndexError` on an empty
frame.  None of these is caught anywhere in the script. -/

inductive Json where
  | null
  | boolean (b : Bool)
  | num (v : Rat)
  | str (s : String)
  | arr (items : List Json)
  | obj (entries : List (String × Json))

inductive PyErr where
  | requestException (msg : String)
  | jsonDecodeError
  | keyError (key : String)
  | typeError
  | valueError
  | indexError
deriving DecidableEq, Repr

/-- Python `value[k]` for a string key `k`: a dict lookup (`KeyError` when the
key is absent), a `TypeError` on every non-dict value. -/
def Json.subscript : Json → String → Except PyErr Json
  | .obj entries, k =>
      match entries.lookup k with
      | some v => .ok v
      | none => .error (.keyError k)
  | _, _ => .error .typeError

def Json.field? : Json → String → Option Json
  | .obj entries, k => entries.lookup k
  | _, _ => none

def Json.asNum : Json → Option Rat
  | .num v => some v
  | _ => none

def Json.asInt : Json → Option Int
  | .num v => if v.den = 1 then some v.num else none
  | _ => none

/-- One element of the `Data.Data` array turned into a row of the frame built
on lines 21-22: the six selected columns, with `time` converted by
`pd.to_datetime(unit='s')`. -/
def barOfJson (j : Json) : Option Bar := do
  let t ← (j.field? "time").bind Json.asInt
  let c ← (j.field? "close").bind Json.asNum
  let o ← (j.field? "open").bind Json.asNum
  let h ← (j.field? "high").bind Json.asNum
  let l ← (j.field? "low").bind Json.asNum
  let v ← (j.field? "volumeto").bind Json.asNum
  pure ⟨pd_to_datetime_unit_s t, c, o, h, l, v⟩

/-! ## The data fetcher (lines 16-23 of the script) -/

inductive PyParam where
  | str (v : String)
  | int (v : Int)
deriving DecidableEq, Repr

structure HttpRequest where
  url : String
  params : List (String × PyParam)
deriving DecidableEq, Repr

/-- Lines 17-19: the single request `requests.get(url, params=params)`. -/
def fetch_request : HttpRequest :=
  { url := "https://min-api.cryptocompare.com/data/v2/histoday"
    params := [("fsym", .str "ETH"), ("tsym", .str "USD"), ("limit", .int 1729)] }

/-- Lines 16-23, over an HTTP oracle standing for the network: issue the one
GET, take `['Data']['Data']`, build the frame and convert timestamps.
Elements that are not well-formed rows yield `NaN` cells in pandas rather
than an error; they are dropped here, which no claim touches. -/
def fetch_data (http : HttpRequest → Except PyErr Json) : Except PyErr (List Bar) := do
  let body ← http fetch_request
  let d1 ← body.subscript "Data"
  let d2 ← d1.subscript "Data"
  match d2 with
  | .arr items => pure (items.filterMap barOfJson)
  | _ => .error .valueError

/-! ## Dataset windower configuration (lines 61-77 of the script) -/

structure TimeSeriesDataSetParams where
  time_idx : String
  target : String
  group_ids : List String
  min_encoder_length : Nat
  max_encoder_length : Nat
  min_prediction_length : Nat
  max_prediction_length : Nat
  static_categoricals : List String
  time_varying_known_reals : List String
  time_varying_unknown_reals : List String
  add_relative_time_idx : Bool
  add_target_scales : Bool
  add_encoder_length : Bool
deriving DecidableEq, Repr

/-- The keyword arguments of the training `TimeSeriesDataSet` (lines 61-77);
`MAX_ENCODER_LENGTH // 2` is Python floor division, `Nat` division here. -/
def trainingParams : TimeSeriesDataSetParams :=
  { time_idx := "time_idx"
    target := "close"
    group_ids := ["group"]
    min_encoder_length := MAX_ENCODER_LENGTH / 2
    max_encoder_length := MAX_ENCODER_LENGTH
    min_prediction_length := 1
    max_prediction_length := MAX_PREDICTION_LENGTH
    static_categoricals := ["group"]
    time_varying_known_reals := []
    time_varying_unknown_reals := ["open", "high", "low", "volumeto", "close"]
    add_relative_time_idx := true
    add_target_scales := true
    add_encoder_length := true }

/-- Modelled from the spec: the windowing done inside the external library
class `TimeSeriesDataSet` is not part of this repository's sources.  The spec
describes it as "a derived view over the table producing (encoder_window,
decoder_window) pairs per admissible anchor point, each with length ∈
[min_encoder_length, max_encoder_length] for context and exactly
max_prediction_length targets": for every anchor and every encoder length
inside the bounds such that the encoder slice and the decoder slice of
exactly `max_prediction_length` rows both fit in the table, the pair of
slices is produced. -/
def datasetWindows (p : TimeSeriesDataSetParams) (rows : List Bar) :
    List (List Bar × List Bar) :=
  (List.range (rows.length + 1)).flatMap fun anchor =>
    (List.range (p.max_encoder_length + 1)).filterMap fun encLen =>
      if p.min_encoder_length ≤ encLen ∧ anchor + encLen + p.max_prediction_length ≤ rows.length then
        some ((rows.drop anchor).take encLen,
              (rows.drop (anchor + encLen)).take p.max_prediction_length)
      else none

/-! ## Model and training-adapter configuration (lines 49-52 and 84-96) -/

structure AdamWParams where
  lr : Rat
  weight_decay : Rat
deriving DecidableEq, Repr

structure CosineAnnealingLRParams where
  T_max : Nat
deriving DecidableEq, Repr

structure OptimizerSetup where
  optimizer : AdamWParams
  lr_scheduler : CosineAnnealingLRParams
  monitor : String
deriving DecidableEq, Repr

/-- Lines 49-52: `LightningTFT.configure_optimizers` returns AdamW with
`lr=1e-3`, `weight_decay=1e-5`, a `CosineAnnealingLR` schedule with
`T_max=10`, and `"monitor": "val_loss"`. -/
def configure_optimizers : OptimizerSetup :=
  { optimizer := { lr := 1 / 1000, weight_decay := 1 / 100000 }
    lr_scheduler := { T_max := 10 }
    monitor := "val_loss" }

structure TFTParams where
  hidden_size : Nat
  lstm_layers : Nat
  dropout : Rat
  output_size : Nat
  loss_quantiles : List Rat
  learning_rate : Rat
  hidden_continuous_size : Nat
  attention_head_size : Nat
  max_encoder_length : Nat
  reduce_on_plateau_patience : Nat
deriving DecidableEq, Repr

/-- Lines 84-96: the keyword arguments of
`TemporalFusionTransformer.from_dataset`, with `loss=QuantileLoss([0.1, 0.5,
0.9])`. -/
def tft : TFTParams :=
  { hidden_size := 256
    lstm_layers := 2
    dropout := 3 / 10
    output_size := 7
    loss_quantiles := [1 / 10, 1 / 2, 9 / 10]
    learning_rate := 1 / 10000
    hidden_continuous_size := 64
    attention_head_size := 4
    max_encoder_length := MAX_ENCODER_LENGTH
    reduce_on_plateau_patience := 4 }

/-- Modelled from the spec: the training framework that consumes
`configure_optimizers` is external library code; per the spec, "the adapter's
optimizer silently overrides the model's", so the learning rate in effect
during training is the one `configure_optimizers` returns. -/
def effective_learning_rate : Rat := configure_optimizers.optimizer.lr

/-! ## Predictor/reporter (lines 116-122 of the script) -/

/-- Line 118: `last_known_date = df['time'].max()`. -/
def last_known_date (df : List Bar) : Timestamp := timeMax df

/-- Lines 119-120: `[last_known_date + pd.Timedelta(days=i+1) for i in
range(n)]` where `n = predicted_prices.shape[1]`. -/
def future_dates (d : Timestamp) (n : Nat) : List Timestamp :=
  (List.range n).map (fun i : Nat => d.addSeconds (pd_Timedelta_days (Int.ofNat i + 1)))

/-- Line 122: `df['close'].iloc[-1]`, the printed "Last known price". -/
def last_close (df : List Bar) : Option Rat := df.getLast?.map (fun r => r.close)

/-! ## The module-level pipeline

The script runs fetch → prepare → split → train → predict → report at module
level with no exception handling; training and inference are external, so the
pipeline is parameterized by the HTTP oracle and by the predicted-price
matrix the external model returns.  Any failure of the fetch propagates
uncaught to the top. -/

structure PipelineOutput where
  df : List Bar
  trainingTable : List Bar
  validationRows : List Bar
  last_known_price : Rat
  lastDate : Timestamp
  futureDates : List Timestamp
deriving DecidableEq, Repr

def runPipeline (http : HttpRequest → Except PyErr Json)
    (predicted_prices : List (List Rat)) : Except PyErr PipelineOutput :=
  match fetch_data http with
  | .error e => .error e
  | .ok df =>
    match df.getLast? with
    | none => .error .indexError
    | some lastBar =>
      .ok
        { df := df
          trainingTable := trainingRows df
          validationRows := validationTable df
          last_known_price := lastBar.close
          lastDate := last_known_date df
          futureDates := future_dates (last_known_date df) ((predicted_prices.headD []).length) }

/-! ## Shared helper lemmas -/

theorem timeSeconds_ne_nil {df : List Bar} (h : df ≠ []) : timeSeconds df ≠ [] := by
  simpa [timeSeconds] using h

theorem mem_timeSeconds {df : List Bar} {r : Bar} (h : r ∈ df) :
    r.time.epochSeconds ∈ timeSeconds df :=
  List.mem_map_of_mem _ h

theorem le_timeMax {df : List Bar} {r : Bar} (h : r ∈ df) :
    r.time.epochSeconds ≤ (timeMax df).epochSeconds :=
  le_colMax (mem_timeSeconds h)

theorem exists_eq_timeMax {df : List Bar} (h : df ≠ []) :
    ∃ r ∈ df, r.time.epochSeconds = (timeMax df).epochSeconds := by
  have hm : colMax (timeSeconds df) ∈ timeSeconds df := colMax_mem (timeSeconds_ne_nil h)
  rcases List.mem_map.mp hm with ⟨r, hr, he⟩
  exact ⟨r, hr, he⟩

/-- The rows are chained by nondecreasing time: the order in which the API is
assumed (but never checked) to return them. -/
def timesSortedLe (df : List Bar) : Prop :=
  List.Chain' (fun a b => a.time.epochSeconds ≤ b.time.epochSeconds) df

theorem le_getLast_of_sorted :
    ∀ {df : List Bar} {r : Bar}, df.getLast? = some r → timesSortedLe df →
      ∀ x ∈ df, x.time.epochSeconds ≤ r.time.epochSeconds := by
  intro df
  induction df with
  | nil => intro r h; simp at h
  | cons a tl ih =>
    intro r hlast hsorted x hx
    cases tl with
    | nil =>
      simp [List.getLast?] at hlast
      rcases List.mem_singleton.mp hx with rfl
      rw [hlast]
    | cons b tl2 =>
      rw [List.getLast?_cons_cons] at hlast
      rcases (List.chain'_cons).mp hsorted with ⟨hab, htl⟩
      rcases List.mem_cons.mp hx with rfl | hx'
      · exact le_trans hab (ih hlast htl b (List.mem_cons_self _ _))
      · exact ih hlast htl x hx'

end ETHPredictTFT

namespace ETHPredictTFT

/-! ## The claims -/

/-- C4: `configure_optimizers` returns an AdamW optimizer with learning rate
1e-3 and weight decay 1e-5 paired with a cosine-annealing schedule with
`T_max=10` monitored via `"val_loss"`, and this optimizer learning rate
(1e-3) silently overrides the model's own configured `learning_rate` of 1e-4
(the effective rate, modelled from the spec, is the optimizer's and differs
from the model's). -/
theorem C4_configure_optimizers :
    configure_optimizers.optimizer.lr = 1 / 1000
    ∧ configure_optimizers.optimizer.weight_decay = 1 / 100000
    ∧ configure_optimizers.lr_scheduler.T_max = 10
    ∧ configure_optimizers.monitor = "val_loss"
    ∧ tft.learning_rate = 1 / 10000
    ∧ effective_learning_rate = configure_optimizers.optimizer.lr
    ∧ effective_learning_rate ≠ tft.learning_rate := by
  refine ⟨rfl, rfl, rfl, rfl, rfl, rfl, ?_⟩
  show (1 / 1000 : Rat) ≠ 1 / 10000
  norm_num

/-- C8: the windowed training dataset's minimum admissible encoder length is
`MAX_ENCODER_LENGTH // 2 = 365 // 2 = 182`, exactly half (by integer floor
division) of its maximum 365. -/
theorem C8_min_encoder_half :
    trainingParams.min_encoder_length = MAX_ENCODER_LENGTH / 2
    ∧ MAX_ENCODER_LENGTH = 365
    ∧ trainingParams.min_encoder_length = 182
    ∧ trainingParams.max_encoder_length = 365 := by
  refine ⟨rfl, rfl, ?_, rfl⟩
  decide

/-- C9 counterexample: the claim says `output_size` (7) is the quantile
count, but the loss is configured with the three quantiles [0.1, 0.5, 0.9],
so `output_size` is not the quantile count of the configured loss. -/
theorem C9_quantiles_cex :
    tft.output_size = 7
    ∧ tft.loss_quantiles = [1 / 10, 1 / 2, 9 / 10]
    ∧ ¬ tft.output_size = tft.loss_quantiles.length := by
  refine ⟨rfl, rfl, ?_⟩
  decide

/-- C9 (amended): the TFT is instantiated with `output_size=7` and its loss
is quantile loss at exactly the quantiles [0.1, 0.5, 0.9]; the quantile
count of that loss is 3, not `output_size`. -/
theorem C9_output_size_loss :
    tft.output_size = 7
    ∧ tft.loss_quantiles = [1 / 10, 1 / 2, 9 / 10]
    ∧ tft.loss_quantiles.length = 3 := by
  exact ⟨rfl, rfl, rfl⟩

/-- C1: `training_cutoff` is the maximum timestamp minus 7 days; the table
handed to the training dataset windower is exactly the rows with `time <=
training_cutoff`, the remaining rows are the held-out horizon, and the
validation dataset is built over all rows of the table. -/
theorem C1_cutoff_split (df : List Bar) (h : df ≠ []) :
    (training_cutoff df).epochSeconds = (timeMax df).epochSeconds - 7 * 86400
    ∧ (∀ r ∈ df, r.time.epochSeconds ≤ (timeMax df).epochSeconds)
    ∧ (∃ r ∈ df, r.time.epochSeconds = (timeMax df).epochSeconds)
    ∧ (∀ r : Bar, r ∈ trainingRows df ↔
        r ∈ df ∧ r.time.epochSeconds ≤ (training_cutoff df).epochSeconds)
    ∧ (∀ r : Bar, r ∈ holdoutRows df ↔
        r ∈ df ∧ (training_cutoff df).epochSeconds < r.time.epochSeconds)
    ∧ validationTable df = df := by
  refine ⟨?_, fun r hr => le_timeMax hr, exists_eq_timeMax h, ?_, ?_, rfl⟩
  · show (timeMax df).epochSeconds - (MAX_PREDICTION_LENGTH : Int) * 86400 = _
    norm_num [MAX_PREDICTION_LENGTH]
  · intro r
    simp [trainingRows, List.mem_filter]
  · intro r
    simp [holdoutRows, List.mem_filter]

def sampleBar (t : Int) : Bar := ⟨⟨t⟩, 1, 1, 1, 1, 1⟩

def sampleDf : List Bar := [sampleBar 0, sampleBar 864000]

theorem C1_witness : sampleBar 0 ∈ trainingRows sampleDf :=
  ((C1_cutoff_split sampleDf (by decide)).2.2.2.1 (sampleBar 0)).mpr
    ⟨by decide, by decide⟩

/-- C2: the derived `time_idx` column has one integer value per row, each
equal to the floored number of days between the row's timestamp and the
minimum timestamp, hence non-negative; and over a table whose rows arrive
ordered by time (the API order the script assumes), it is monotonically
non-decreasing with row order. -/
theorem C2_time_idx (df : List Bar) (hs : timesSortedLe df) :
    (time_idx_col df).length = df.length
    ∧ (∀ r ∈ df, time_idx df r =
        (r.time.epochSeconds - (timeMin df).epochSeconds).fdiv 86400)
    ∧ (∀ i ∈ time_idx_col df, 0 ≤ i)
    ∧ List.Chain' (· ≤ ·) (time_idx_col df) := by
  refine ⟨List.length_map _ _, fun r _ => rfl, ?_, ?_⟩
  · intro i hi
    rcases List.mem_map.mp hi with ⟨r, hr, rfl⟩
    have hmin : (timeMin df).epochSeconds ≤ r.time.epochSeconds :=
      colMin_le (mem_timeSeconds hr)
    exact Int.fdiv_nonneg (by omega) (by norm_num)
  · rw [time_idx_col, List.chain'_map]
    refine hs.imp ?_
    intro a b hab
    rw [time_idx, time_idx,
      Int.fdiv_eq_ediv _ (by norm_num), Int.fdiv_eq_ediv _ (by norm_num)]
    exact Int.ediv_le_ediv (by norm_num) (by omega)

theorem C2_witness :
    (time_idx_col sampleDf).length = sampleDf.length
    ∧ (∀ r ∈ sampleDf, time_idx sampleDf r =
        (r.time.epochSeconds - (timeMin sampleDf).epochSeconds).fdiv 86400)
    ∧ (∀ i ∈ time_idx_col sampleDf, 0 ≤ i)
    ∧ List.Chain' (· ≤ ·) (time_idx_col sampleDf) :=
  C2_time_idx sampleDf (by constructor <;> simp [sampleBar])

/-- C3: the reconstructed future dates for a 7-day forecast are exactly
`last_known_date + 1 day, ..., + 7 days`, strictly increasing with no gaps
or duplicates, one date per forecasted day, where `last_known_date` is the
maximum timestamp of the fetched table. -/
theorem C3_future_dates (df : List Bar) (h : df ≠ []) :
    future_dates (last_known_date df) 7 =
      [(last_known_date df).addSeconds 86400, (last_known_date df).addSeconds 172800,
       (last_known_date df).addSeconds 259200, (last_known_date df).addSeconds 345600,
       (last_known_date df).addSeconds 432000, (last_known_date df).addSeconds 518400,
       (last_known_date df).addSeconds 604800]
    ∧ List.Chain' (fun a b : Timestamp => a.epochSeconds < b.epochSeconds)
        (future_dates (last_known_date df) 7)
    ∧ (future_dates (last_known_date df) 7).Nodup
    ∧ (∀ n : Nat, (future_dates (last_known_date df) n).length = n)
    ∧ (∀ r ∈ df, r.time.epochSeconds ≤ (last_known_date df).epochSeconds)
    ∧ (∃ r ∈ df, r.time = last_known_date df) := by
  have heq : future_dates (last_known_date df) 7 =
      [(last_known_date df).addSeconds 86400, (last_known_date df).addSeconds 172800,
       (last_known_date df).addSeconds 259200, (last_known_date df).addSeconds 345600,
       (last_known_date df).addSeconds 432000, (last_known_date df).addSeconds 518400,
       (last_known_date df).addSeconds 604800] := rfl
  refine ⟨heq, ?_, ?_, ?_, fun r hr => le_timeMax hr, ?_⟩
  · rw [heq]
    simp [List.chain'_cons, Timestamp.addSeconds]
  · rw [heq]
    simp [List.nodup_cons, Timestamp.addSeconds, Timestamp.mk.injEq]
  · intro n
    rw [future_dates, List.length_map, List.length_range]
  · rcases exists_eq_timeMax h with ⟨r, hr, he⟩
    exact ⟨r, hr, congrArg Timestamp.mk he⟩

theorem C3_witness :
    future_dates (last_known_date sampleDf) 7 =
      [(last_known_date sampleDf).addSeconds 86400, (last_known_date sampleDf).addSeconds 172800,
       (last_known_date sampleDf).addSeconds 259200, (last_known_date sampleDf).addSeconds 345600,
       (last_known_date sampleDf).addSeconds 432000, (last_known_date sampleDf).addSeconds 518400,
       (last_known_date sampleDf).addSeconds 604800]
    ∧ List.Chain' (fun a b : Timestamp => a.epochSeconds < b.epochSeconds)
        (future_dates (last_known_date sampleDf) 7)
    ∧ (future_dates (last_known_date sampleDf) 7).Nodup
    ∧ (∀ n : Nat, (future_dates (last_known_date sampleDf) n).length = n)
    ∧ (∀ r ∈ sampleDf, r.time.epochSeconds ≤ (last_known_date sampleDf).epochSeconds)
    ∧ (∃ r ∈ sampleDf, r.time = last_known_date sampleDf) :=
  C3_future_dates sampleDf (by decide)

theorem mem_datasetWindows (p : TimeSeriesDataSetParams) (rows : List Bar)
    (anchor encLen : Nat) (h1 : anchor < rows.length + 1)
    (h2 : encLen < p.max_encoder_length + 1) (h3 : p.min_encoder_length ≤ encLen)
    (h4 : anchor + encLen + p.max_prediction_length ≤ rows.length) :
    ((rows.drop anchor).take encLen,
      (rows.drop (anchor + encLen)).take p.max_prediction_length)
      ∈ datasetWindows p rows := by
  unfold datasetWindows
  refine List.mem_flatMap.mpr ⟨anchor, List.mem_range.mpr h1, ?_⟩
  refine List.mem_filterMap.mpr ⟨encLen, List.mem_range.mpr h2, ?_⟩
  rw [if_pos ⟨h3, h4⟩]

/-- C5: every (encoder_window, decoder_window) pair produced by the windowed
training dataset (modelled from the spec, with the length parameters of the
training `TimeSeriesDataSet` call) has encoder length in [182, 365] and a
decoder of exactly 7 rows. -/
theorem C5_window_lengths (rows : List Bar) (encoder decoder : List Bar)
    (h : (encoder, decoder) ∈ datasetWindows trainingParams rows) :
    182 ≤ encoder.length ∧ encoder.length ≤ 365 ∧ decoder.length = 7 := by
  unfold datasetWindows at h
  rcases List.mem_flatMap.mp h with ⟨anchor, ha, hmem⟩
  rcases List.mem_filterMap.mp hmem with ⟨encLen, he, heq⟩
  have he' : encLen < trainingParams.max_encoder_length + 1 := List.mem_range.mp he
  split at heq
  case isTrue hcond =>
    rcases hcond with ⟨hmin, hfit⟩
    rcases Option.some.injEq _ _ ▸ heq with heq'
    have hpair := Prod.mk.injEq _ _ _ _ ▸ heq'
    rcases Option.some_inj.mp heq with heq2
    have henc : encoder = (rows.drop anchor).take encLen := (Prod.mk.injEq _ _ _ _ ▸ heq2.symm).1
    have hdec : decoder = (rows.drop (anchor + encLen)).take trainingParams.max_prediction_length :=
      (Prod.mk.injEq _ _ _ _ ▸ heq2.symm).2
    have hlen1 : encoder.length = encLen := by
      rw [henc, List.length_take, List.length_drop]
      have : trainingParams.max_prediction_length = 7 := rfl
      omega
    have hlen2 : decoder.length = trainingParams.max_prediction_length := by
      rw [hdec, List.length_take, List.length_drop]
      have : trainingParams.max_prediction_length = 7 := rfl
      omega
    have hmin' : trainingParams.min_encoder_length = 182 := rfl
    have hmax' : trainingParams.max_encoder_length = 365 := rfl
    have hpred : trainingParams.max_prediction_length = 7 := rfl
    omega
  case isFalse =>
    exact absurd heq (by simp)

def sampleWindowRows : List Bar := List.replicate 189 (sampleBar 0)

theorem sampleWindowRows_length : sampleWindowRows.length = 189 := by
  rw [sampleWindowRows, List.length_replicate]

theorem C5_witness :
    182 ≤ ((sampleWindowRows.drop 0).take 182).length
    ∧ ((sampleWindowRows.drop 0).take 182).length ≤ 365
    ∧ ((sampleWindowRows.drop 182).take 7).length = 7 :=
  C5_window_lengths sampleWindowRows _ _
    (mem_datasetWindows trainingParams sampleWindowRows 0 182
      (by rw [sampleWindowRows_length]; omega)
      (by decide)
      (by decide)
      (by rw [sampleWindowRows_length]; decide))

/-! ## Well-formed API responses, for exercising the fetcher -/

/-- A well-formed element of the `Data.Data` array, carrying the six fields
the frame selects, encoded back from a row. -/
def rawOfBar (b : Bar) : Json :=
  .obj [("time", .num (b.time.epochSeconds : Rat)), ("close", .num b.close),
        ("open", .num b.«open»), ("high", .num b.high), ("low", .num b.low),
        ("volumeto", .num b.volumeto)]

/-- The response shape the script expects: a body
`{"Data": {"Data": [...]}}`. -/
def histodayBody (items : List Json) : Json :=
  .obj [("Data", .obj [("Data", .arr items)])]

theorem barOfJson_rawOfBar (b : Bar) : barOfJson (rawOfBar b) = some b := by
  simp [barOfJson, rawOfBar, Json.field?, Json.asInt, Json.asNum, List.lookup,
    pd_to_datetime_unit_s]

/-- C6 counterexample: the parsed table's volume column is named
`volumeto` (the raw API field), not `volume` as the claim states. -/
theorem C6_columns_cex :
    fetch_columns ≠ ["time", "close", "open", "high", "low", "volume"]
    ∧ "volume" ∉ fetch_columns
    ∧ "volumeto" ∈ fetch_columns := by
  refine ⟨?_, ?_, ?_⟩ <;> decide

/-- C6 (amended): `fetch_data` issues one HTTP GET to the market-data
endpoint with parameters fsym=ETH, tsym=USD, limit=1729 (the result depends
only on that one response), parses the JSON body's `Data.Data` array into a
table with columns time, close, open, high, low, volumeto, and converts the
API's integer Unix timestamps into calendar dates via
`pd.to_datetime(unit='s')`. -/
theorem C6_fetch :
    fetch_request.url = "https://min-api.cryptocompare.com/data/v2/histoday"
    ∧ fetch_request.params = [("fsym", .str "ETH"), ("tsym", .str "USD"), ("limit", .int 1729)]
    ∧ (∀ h1 h2 : HttpRequest → Except PyErr Json,
        h1 fetch_request = h2 fetch_request → fetch_data h1 = fetch_data h2)
    ∧ fetch_columns = ["time", "close", "open", "high", "low", "volumeto"]
    ∧ (∀ bars : List Bar,
        fetch_data (fun _ => .ok (histodayBody (bars.map rawOfBar))) = .ok bars) := by
  refine ⟨rfl, rfl, ?_, rfl, ?_⟩
  · intro h1 h2 hresp
    unfold fetch_data
    rw [hresp]
  · intro bars
    have hparse : (bars.map rawOfBar).filterMap barOfJson = bars := by
      rw [List.filterMap_map]
      have hfun : (barOfJson ∘ rawOfBar) = some := by
        funext b
        exact barOfJson_rawOfBar b
      rw [hfun, List.filterMap_some]
    calc fetch_data (fun _ => .ok (histodayBody (bars.map rawOfBar)))
        = .ok ((bars.map rawOfBar).filterMap barOfJson) := rfl
      _ = .ok bars := by rw [hparse]

/-- C7: if the HTTP call errors (or the body fails to decode as JSON), or
the response JSON lacks the `Data.Data` path, the fetch fails with that very
error and the module-level pipeline propagates it unchanged to the top: no
handler, retry or recovery exists anywhere on the path. -/
theorem C7_failure_propagates (http : HttpRequest → Except PyErr Json)
    (predicted_prices : List (List Rat)) :
    (∀ e : PyErr, http fetch_request = .error e →
      fetch_data http = .error e
      ∧ runPipeline http predicted_prices = .error e)
    ∧ (∀ j : Json, ∀ e : PyErr, http fetch_request = .ok j →
        (do
          let d1 ← j.subscript "Data"
          d1.subscript "Data" : Except PyErr Json) = .error e →
        fetch_data http = .error e
        ∧ runPipeline http predicted_prices = .error e) := by
  constructor
  · intro e he
    have hf : fetch_data http = .error e := by
      unfold fetch_data
      rw [he]
      rfl
    refine ⟨hf, ?_⟩
    unfold runPipeline
    rw [hf]
  · intro j e hok hpath
    have hf : fetch_data http = .error e := by
      unfold fetch_data
      rw [hok]
      show (do
        let d1 ← j.subscript "Data"
        let d2 ← d1.subscript "Data"
        match d2 with
        | .arr items => pure (items.filterMap barOfJson)
        | _ => Except.error .valueError : Except PyErr (List Bar)) = .error e
      cases h1 : j.subscript "Data" with
      | error e1 =>
        rw [h1] at hpath
        have he1 : e1 = e := Except.error.inj hpath
        subst he1
        rfl
      | ok d1 =>
        rw [h1] at hpath
        have hpath' : d1.subscript "Data" = .error e := hpath
        show (do
          let d2 ← d1.subscript "Data"
          match d2 with
          | .arr items => pure (items.filterMap barOfJson)
          | _ => Except.error .valueError : Except PyErr (List Bar)) = .error e
        rw [hpath']
        rfl
    refine ⟨hf, ?_⟩
    unfold runPipeline
    rw [hf]

theorem C7_witness :
    (fetch_data (fun _ => .error (.requestException "connection error"))
        = .error (.requestException "connection error")
      ∧ runPipeline (fun _ => .error (.requestException "connection error")) []
        = .error (.requestException "connection error"))
    ∧ (fetch_data (fun _ => .ok (Json.obj [])) = .error (.keyError "Data")
      ∧ runPipeline (fun _ => .ok (Json.obj [])) [] = .error (.keyError "Data")) :=
  ⟨(C7_failure_propagates (fun _ => .error (.requestException "connection error")) []).1
      (.requestException "connection error") rfl,
    (C7_failure_propagates (fun _ => .ok (Json.obj [])) []).2
      (Json.obj []) (.keyError "Data") rfl rfl⟩

/-- C10: the printed "Last known price" is the close of the final row in
API-returned order (`iloc[-1]`) of the table the pipeline reports, while
`last_known_date` is the maximum of the time column; the final row carries
the maximum time whenever the rows arrive sorted ascending by time, but not
in general — and the script never sorts the table (the reported table is the
fetched one unchanged). -/
theorem C10_last_row_vs_max :
    (∀ df : List Bar, ∀ r : Bar, df.getLast? = some r → timesSortedLe df →
      r.time = last_known_date df)
    ∧ (∃ df : List Bar, ∃ r : Bar, df.getLast? = some r ∧ r.time ≠ last_known_date df)
    ∧ (∀ df : List Bar, ∀ r : Bar, df.getLast? = some r → last_close df = some r.close)
    ∧ (∀ http : HttpRequest → Except PyErr Json, ∀ pp : List (List Rat),
        ∀ out : PipelineOutput, runPipeline http pp = .ok out →
        fetch_data http = .ok out.df
        ∧ some out.last_known_price = last_close out.df
        ∧ out.lastDate = last_known_date out.df) := by
  refine ⟨?_, ?_, ?_, ?_⟩
  · intro df r hlast hsorted
    have hne : df ≠ [] := by
      intro h0
      rw [h0] at hlast
      simp at hlast
    have h1 : r.time.epochSeconds ≤ (timeMax df).epochSeconds :=
      le_timeMax (List.mem_of_getLast?_eq_some hlast)
    have h2 : (timeMax df).epochSeconds ≤ r.time.epochSeconds := by
      rcases exists_eq_timeMax hne with ⟨s, hs, he⟩
      rw [← he]
      exact le_getLast_of_sorted hlast hsorted s hs
    exact congrArg Timestamp.mk (le_antisymm h1 h2)
  · exact ⟨[sampleBar 86400, sampleBar 0], sampleBar 0, by decide, by decide⟩
  · intro df r hlast
    rw [last_close, hlast]
    rfl
  · intro http pp out hrun
    unfold runPipeline at hrun
    cases hf : fetch_data http with
    | error e =>
      rw [hf] at hrun
      cases hrun
    | ok df =>
      rw [hf] at hrun
      have hrun2 : (match df.getLast? with
          | none => (Except.error PyErr.indexError : Except PyErr PipelineOutput)
          | some lastBar =>
            Except.ok
              { df := df
                trainingTable := trainingRows df
                validationRows := validationTable df
                last_known_price := lastBar.close
                lastDate := last_known_date df
                futureDates := future_dates (last_known_date df)
                  ((pp.headD []).length) }) = Except.ok out := hrun
      cases hlast : df.getLast? with
      | none =>
        rw [hlast] at hrun2
        cases hrun2
      | some r =>
        rw [hlast] at hrun2
        have hout := Except.ok.inj hrun2
        rw [← hout]
        refine ⟨rfl, ?_, rfl⟩
        show some r.close = last_close df
        rw [last_close, hlast]
        rfl

end ETHPredictTFT
